import Mathlib

/-!
Verification of the module-registry / resolver semantics described for the
learn-co-curriculum/react-hooks-import-export repository.

The repository contains instructional documents about ES-module
`import`/`export` together with toy snippets (`src/Hogwarts.js` and the
Gryffindor examples embedded in the documents).  The registry/resolver core
itself is described only in the specification, so its operations are
modelled from the spec; the concrete Gryffindor module and the Hogwarts
consumer are embedded from the source snippets.
-/

namespace ImportExport

/-- Registration-time errors (spec section 7). -/
inductive RegError where
  | DuplicateDefaultExport
  | DuplicateNamedExport
deriving Repr, DecidableEq

/-- Eager resolution-time errors (spec section 7): structural failures. -/
inductive ResError where
  | ModuleNotFound
  | NoDefaultExport
deriving Repr, DecidableEq

/-- Deferred access-time error (spec section 7): raised only when a missing
binding is actually read or invoked. -/
inductive AccessError where
  | UnresolvedBinding (name : String)
deriving Repr, DecidableEq

/-- Modelled from the spec: a Module record (spec section 3) — one registered
source unit, holding at most one default binding and an ordered mapping of
named bindings (declaration order preserved for enumeration). -/
structure Module (V : Type) where
  defaultBinding : Option V
  namedBindings : List (String × V)
deriving Repr

/-- Modelled from the spec: the process-wide registry, a mapping from path to
Module record, kept as an ordered association list. -/
def Registry (V : Type) : Type := List (String × Module V)

/-- First-match lookup in an ordered association list. -/
def assocLookup {V : Type} : List (String × V) → String → Option V
  | [], _ => none
  | (n, v) :: rest, k => if n = k then some v else assocLookup rest k

/-- Replace the record stored under `path`, or append a fresh entry when the
path has no record yet. -/
def setModule {V : Type} : Registry V → String → Module V → Registry V
  | [], path, m => [(path, m)]
  | (p, m0) :: rest, path, m =>
      if p = path then (path, m) :: rest else (p, m0) :: setModule rest path m

/-- Modelled from the spec: `lookup(path)` (spec section 4.1) — returns the
Module record or fails with `ModuleNotFound`. -/
def lookup {V : Type} (reg : Registry V) (path : String) :
    Except ResError (Module V) :=
  match assocLookup reg path with
  | some m => .ok m
  | none => .error .ModuleNotFound

/-- Modelled from the spec: `registerDefault(path, value)` (spec section 4.1) —
fails with `DuplicateDefaultExport` if `path` already has a default binding;
a path with no record yet is created on first registration. -/
def registerDefault {V : Type} (reg : Registry V) (path : String) (v : V) :
    Except RegError (Registry V) :=
  match assocLookup reg path with
  | some m =>
    match m.defaultBinding with
    | some _ => .error .DuplicateDefaultExport
    | none => .ok (setModule reg path { m with defaultBinding := some v })
  | none => .ok (setModule reg path { defaultBinding := some v, namedBindings := [] })

/-- Modelled from the spec: `registerNamed(path, name, value)` (spec section
4.1) — fails with `DuplicateNamedExport` if `name` already exists for `path`;
otherwise the binding is appended, preserving declaration order. -/
def registerNamed {V : Type} (reg : Registry V) (path name : String) (v : V) :
    Except RegError (Registry V) :=
  match assocLookup reg path with
  | some m =>
    match assocLookup m.namedBindings name with
    | some _ => .error .DuplicateNamedExport
    | none => .ok (setModule reg path { m with namedBindings := m.namedBindings ++ [(name, v)] })
  | none => .ok (setModule reg path { defaultBinding := none, namedBindings := [(name, v)] })

/-- Modelled from the spec: the three import-request shapes (spec section 3) —
default import, selective named import with optional aliasing, and wildcard
namespace import. -/
inductive ImportKind where
  | defaultImport
  | namedImport (names : List (String × Option String))
  | namespaceImport (aliasName : String)
deriving Repr

/-- Modelled from the spec: an import request (spec section 3). -/
structure Request where
  fromPath : String
  targetPath : String
  kind : ImportKind
deriving Repr

/-- One step of relative-path collapse: `.` and empty segments vanish, `..`
pops the last kept segment, anything else is kept. -/
def collapseStep (stack : List String) (seg : String) : List String :=
  if seg = "." ∨ seg = "" then stack
  else if seg = ".." then stack.dropLast
  else stack ++ [seg]

/-- One character of slash-splitting: a `/` opens a new segment, any other
character extends the current one. -/
def splitSlashStep (c : Char) (acc : List (List Char)) : List (List Char) :=
  if c = '/' then [] :: acc
  else
    match acc with
    | g :: gs => (c :: g) :: gs
    | [] => [[c]]

/-- Split a path into its `/`-separated segments. -/
def splitSlash (s : String) : List String :=
  (s.toList.foldr splitSlashStep [[]]).map (fun l => String.mk l)

/-- Rejoin path segments with `/`. -/
def joinSlash : List String → String
  | [] => ""
  | [s] => s
  | s :: rest => s ++ "/" ++ joinSlash rest

/-- Modelled from the spec: normalize `targetPath` relative to `fromPath`
(spec section 4.2) — sibling/parent traversal, `.`/`..` segments collapse as
in standard relative path resolution. -/
def resolvePath (fromPath targetPath : String) : String :=
  let base := (splitSlash fromPath).dropLast
  let segs := splitSlash targetPath
  joinSlash ((base ++ segs).foldl collapseStep [])

/-- Modelled from the spec: the deferred-result value of spec section 9 — a
tagged variant, valid to pass around, that raises only when actually used. -/
inductive BindingRef (V : Type) where
  | resolved (v : V)
  | unresolved (name : String)
deriving Repr

/-- Modelled from the spec: the resolved result handed to consumer code (spec
section 3) — a direct value reference, a list of local-name bindings, or a
namespace object aggregating the named bindings. -/
inductive Binding (V : Type) where
  | direct (v : V)
  | named (bs : List (String × BindingRef V))
  | namespaceObj (aliasName : String) (obj : List (String × V))
deriving Repr

/-- Modelled from the spec: per-pair named resolution (spec section 4.2) —
present names bind `alias ?? name` to the value, absent names bind it to an
unresolved marker. -/
def resolveNamed {V : Type} (nb : List (String × V)) :
    List (String × Option String) → List (String × BindingRef V)
  | [] => []
  | (name, a) :: rest =>
      let ref : BindingRef V :=
        match assocLookup nb name with
        | some v => .resolved v
        | none => .unresolved name
      (a.getD name, ref) :: resolveNamed nb rest

/-- Modelled from the spec: the Resolver (spec section 4.2) — normalize the
target path, look the module up, then dispatch on the request kind.  Only
`ModuleNotFound` and `NoDefaultExport` are raised here; missing named symbols
yield unresolved markers instead of resolution-time failures. -/
def resolve {V : Type} (reg : Registry V) (req : Request) :
    Except ResError (Binding V) :=
  match lookup reg (resolvePath req.fromPath req.targetPath) with
  | .error e => .error e
  | .ok m =>
    match req.kind with
    | .defaultImport =>
      match m.defaultBinding with
      | some v => .ok (.direct v)
      | none => .error .NoDefaultExport
    | .namedImport names => .ok (.named (resolveNamed m.namedBindings names))
    | .namespaceImport a => .ok (.namespaceObj a m.namedBindings)

/-- Modelled from the spec: reading or invoking a binding (spec section 4.2) —
an unresolved marker raises `UnresolvedBinding` only here, at use time. -/
def readBinding {V : Type} : BindingRef V → Except AccessError V
  | .resolved v => .ok v
  | .unresolved n => .error (.UnresolvedBinding n)

/-- Modelled from the spec: accessing a key on a namespace object (spec
section 4.2) — an absent key raises `UnresolvedBinding` at access time. -/
def nsAccess {V : Type} (obj : List (String × V)) (key : String) :
    Except AccessError V :=
  match assocLookup obj key with
  | some v => .ok v
  | none => .error (.UnresolvedBinding key)

/-- Invoking a value reference: the illustrated exports are nullary functions
producing the logged string. -/
def invoke (v : Unit → String) : String := v ()

/-!  The concrete Gryffindor module, embedded from the source snippets
(`src/houses/Gryffindor.js` in the documents): `colors` and `mascot` are
exported, `values` is defined but not exported. -/

/-- `export function colors() { console.log("Scarlet and Gold") }`. -/
def colors : Unit → String := fun _ => "Scarlet and Gold"

/-- `function values() { console.log("Courage, Bravery, Nerve and Chivalry") }`
— defined in Gryffindor.js but not exported. -/
def values : Unit → String := fun _ => "Courage, Bravery, Nerve and Chivalry"

/-- `export function mascot() { console.log("The Lion") }`. -/
def mascot : Unit → String := fun _ => "The Lion"

/-- `export default function Hogwarts() {...}` from src/Hogwarts.js; the
documents note its render output is `NOBODY CARES ABOUT US`, which stands in
for the component's behavior here. -/
def Hogwarts : Unit → String := fun _ => "NOBODY CARES ABOUT US"

/-- Path of the Gryffindor module in the illustrated file tree. -/
def gryffPath : String := "src/houses/Gryffindor.js"

/-- Path of the consuming Hogwarts module. -/
def hogwartsPath : String := "src/Hogwarts.js"

/-- The Gryffindor module record as registration produces it: the two
exported functions, in declaration order, and no default binding. -/
def gryffModule : Module (Unit → String) :=
  { defaultBinding := none, namedBindings := [("colors", colors), ("mascot", mascot)] }

/-- The registry after Gryffindor's exports are registered. -/
def gryffRegistry : Registry (Unit → String) := [(gryffPath, gryffModule)]

/-!  A small operational layer for the load-then-run lifecycle (spec section
5): registration mutates the process-wide registry, resolution only reads
it. -/

/-- One event against the process-wide registry. -/
inductive Op (V : Type) where
  | regDefault (path : String) (v : V)
  | regNamed (path name : String) (v : V)
  | doResolve (req : Request)

/-- The externally visible outcome of one event. -/
inductive Outcome (V : Type) where
  | regOk
  | regErr (e : RegError)
  | resOk (b : Binding V)
  | resErr (e : ResError)

/-- Modelled from the spec: the process-wide state transition (spec section
5) — a failed registration leaves the registry unchanged, and resolution is a
read-only query over the current registry contents. -/
def step {V : Type} (reg : Registry V) : Op V → Registry V × Outcome V
  | .regDefault p v =>
    match registerDefault reg p v with
    | .ok reg2 => (reg2, .regOk)
    | .error e => (reg, .regErr e)
  | .regNamed p n v =>
    match registerNamed reg p n v with
    | .ok reg2 => (reg2, .regOk)
    | .error e => (reg, .regErr e)
  | .doResolve req =>
    match resolve reg req with
    | .ok b => (reg, .resOk b)
    | .error e => (reg, .resErr e)

/-!  Helper lemmas about the association-list registry. -/

theorem assocLookup_setModule_self {V : Type} (reg : Registry V)
    (path : String) (m : Module V) :
    assocLookup (setModule reg path m) path = some m := by
  induction reg with
  | nil => simp [setModule, assocLookup]
  | cons hd tl ih =>
    obtain ⟨p, m0⟩ := hd
    by_cases hp : p = path
    · simp [setModule, hp, assocLookup]
    · simp [setModule, hp, assocLookup, ih]

theorem assocLookup_append_absent {V : Type} (nb : List (String × V))
    (name : String) (v : V) (h : assocLookup nb name = none) :
    assocLookup (nb ++ [(name, v)]) name = some v := by
  induction nb with
  | nil => simp [assocLookup]
  | cons hd tl ih =>
    obtain ⟨n, w⟩ := hd
    by_cases hn : n = name
    · simp [assocLookup, hn] at h
    · simp [assocLookup, hn] at h ⊢
      exact ih h

/-- A successful `registerNamed` stores the very value reference that was
supplied, under the supplied name, in the module at `path`. -/
theorem registerNamed_stores {V : Type} (reg reg1 : Registry V)
    (path name : String) (v : V)
    (h : registerNamed reg path name v = .ok reg1) :
    ∃ m, lookup reg1 path = .ok m ∧ assocLookup m.namedBindings name = some v := by
  unfold registerNamed at h
  cases hreg : assocLookup reg path with
  | some m0 =>
    rw [hreg] at h
    dsimp only at h
    cases hnb : assocLookup m0.namedBindings name with
    | some _ => rw [hnb] at h; cases h
    | none =>
      rw [hnb] at h
      cases h
      refine ⟨{ m0 with namedBindings := m0.namedBindings ++ [(name, v)] }, ?_, ?_⟩
      · unfold lookup
        rw [assocLookup_setModule_self]
      · exact assocLookup_append_absent _ _ _ hnb
  | none =>
    rw [hreg] at h
    dsimp only at h
    cases h
    refine ⟨{ defaultBinding := none, namedBindings := [(name, v)] }, ?_, ?_⟩
    · unfold lookup
      rw [assocLookup_setModule_self]
    · simp [assocLookup]

/-- A successful `registerDefault` stores the supplied value as the default
binding of the module at `path`. -/
theorem registerDefault_stores {V : Type} (reg reg1 : Registry V)
    (path : String) (v : V)
    (h : registerDefault reg path v = .ok reg1) :
    ∃ m, lookup reg1 path = .ok m ∧ m.defaultBinding = some v := by
  unfold registerDefault at h
  cases hreg : assocLookup reg path with
  | some m0 =>
    rw [hreg] at h
    dsimp only at h
    cases hdb : m0.defaultBinding with
    | some _ => rw [hdb] at h; cases h
    | none =>
      rw [hdb] at h
      cases h
      exact ⟨{ m0 with defaultBinding := some v }, by unfold lookup; rw [assocLookup_setModule_self], rfl⟩
  | none =>
    rw [hreg] at h
    dsimp only at h
    cases h
    exact ⟨{ defaultBinding := some v, namedBindings := [] }, by unfold lookup; rw [assocLookup_setModule_self], rfl⟩

/-- `lookup` succeeds exactly on registered paths, returning the stored
record. -/
theorem lookup_eq_ok {V : Type} (reg : Registry V) (path : String)
    (m : Module V) :
    lookup reg path = .ok m ↔ assocLookup reg path = some m := by
  unfold lookup
  cases h : assocLookup reg path <;> simp

/-- Whatever `nsAccess` hands out is one of the namespace object's own
entries. -/
theorem nsAccess_mem {V : Type} (obj : List (String × V)) (key : String)
    (v : V) (h : nsAccess obj key = .ok v) : (key, v) ∈ obj := by
  unfold nsAccess at h
  induction obj with
  | nil => simp [assocLookup] at h
  | cons hd tl ih =>
    obtain ⟨n, w⟩ := hd
    by_cases hn : n = key
    · subst hn
      simp [assocLookup] at h
      simp [h]
    · simp [assocLookup, hn] at h
      simp [ih h]

/-- C1: for every registered module and every name absent from its
`namedBindings`, a `NamedImport` of that name succeeds at resolution time,
yielding an unresolved-marker binding, and `UnresolvedBinding` is raised only
when that binding is subsequently read or invoked. -/
theorem namedImport_missing_is_lazy {V : Type} (reg : Registry V)
    (f t name : String) (a : Option String) (m : Module V)
    (hm : lookup reg (resolvePath f t) = .ok m)
    (habs : assocLookup m.namedBindings name = none) :
    resolve reg ⟨f, t, .namedImport [(name, a)]⟩
      = .ok (.named [(a.getD name, .unresolved name)]) ∧
    readBinding (BindingRef.unresolved name : BindingRef V)
      = .error (.UnresolvedBinding name) := by
  constructor
  · unfold resolve
    rw [hm]
    simp [resolveNamed, habs]
  · rfl

/-- C1 witness: `Gryffindor` exports `colors` and `mascot` but not `values`;
a `NamedImport` of `values` from Hogwarts succeeds at import time, and the
binding fails with `UnresolvedBinding` only when used. -/
theorem namedImport_missing_is_lazy_witness :
    resolve gryffRegistry ⟨hogwartsPath, "./houses/Gryffindor.js", .namedImport [("values", none)]⟩
      = .ok (.named [("values", .unresolved "values")]) ∧
    readBinding (BindingRef.unresolved "values" : BindingRef (Unit → String))
      = .error (.UnresolvedBinding "values") :=
  namedImport_missing_is_lazy gryffRegistry hogwartsPath "./houses/Gryffindor.js"
    "values" none gryffModule rfl rfl

/-- C2: for every registered module, a `NamespaceImport` never errors at
resolution time and yields a namespace object whose entries are exactly the
module's `namedBindings`; a key is readable iff it is bound there, and an
absent key raises `UnresolvedBinding` at access time. -/
theorem namespaceImport_exact_keys {V : Type} (reg : Registry V)
    (f t a : String) (m : Module V)
    (hm : lookup reg (resolvePath f t) = .ok m) :
    resolve reg ⟨f, t, .namespaceImport a⟩ = .ok (.namespaceObj a m.namedBindings) ∧
    (∀ key v, nsAccess m.namedBindings key = .ok v ↔
      assocLookup m.namedBindings key = some v) ∧
    (∀ key, assocLookup m.namedBindings key = none →
      nsAccess m.namedBindings key = .error (.UnresolvedBinding key)) := by
  refine ⟨?_, ?_, ?_⟩
  · unfold resolve
    rw [hm]
  · intro key v
    unfold nsAccess
    cases h : assocLookup m.namedBindings key <;> simp
  · intro key h
    unfold nsAccess
    rw [h]

/-- C2 witness: the namespace import `import * as GryffFunctions` exposes
`colors` and `mascot`, while accessing `GryffFunctions.values` raises
`UnresolvedBinding`. -/
theorem namespaceImport_exact_keys_witness :
    resolve gryffRegistry ⟨hogwartsPath, "./houses/Gryffindor.js", .namespaceImport "GryffFunctions"⟩
      = .ok (.namespaceObj "GryffFunctions" gryffModule.namedBindings) ∧
    nsAccess gryffModule.namedBindings "colors" = .ok colors ∧
    nsAccess gryffModule.namedBindings "mascot" = .ok mascot ∧
    nsAccess gryffModule.namedBindings "values" = .error (.UnresolvedBinding "values") :=
  ⟨(namespaceImport_exact_keys gryffRegistry hogwartsPath "./houses/Gryffindor.js"
      "GryffFunctions" gryffModule rfl).1,
   ((namespaceImport_exact_keys gryffRegistry hogwartsPath "./houses/Gryffindor.js"
      "GryffFunctions" gryffModule rfl).2.1 "colors" colors).mpr rfl,
   ((namespaceImport_exact_keys gryffRegistry hogwartsPath "./houses/Gryffindor.js"
      "GryffFunctions" gryffModule rfl).2.1 "mascot" mascot).mpr rfl,
   (namespaceImport_exact_keys gryffRegistry hogwartsPath "./houses/Gryffindor.js"
      "GryffFunctions" gryffModule rfl).2.2 "values" rfl⟩

/-- C3: a `DefaultImport` against a registered module with no default binding
fails with `NoDefaultExport` eagerly, at resolution time; the failure is a
resolution-time result, never a deferred access-time one. -/
theorem defaultImport_missing_is_eager {V : Type} (reg : Registry V)
    (f t : String) (m : Module V)
    (hm : lookup reg (resolvePath f t) = .ok m)
    (hd : m.defaultBinding = none) :
    resolve reg ⟨f, t, .defaultImport⟩ = .error .NoDefaultExport := by
  unfold resolve
  rw [hm]
  simp [hd]

/-- C3 witness: Gryffindor registers no default export, so a default import
of it fails with `NoDefaultExport` at resolution time. -/
theorem defaultImport_missing_is_eager_witness :
    resolve gryffRegistry ⟨hogwartsPath, "./houses/Gryffindor.js", .defaultImport⟩
      = .error .NoDefaultExport :=
  defaultImport_missing_is_eager gryffRegistry hogwartsPath
    "./houses/Gryffindor.js" gryffModule rfl rfl

/-- C4: once a default binding is registered for a path, a second
`registerDefault` on the same path fails with `DuplicateDefaultExport`. -/
theorem registerDefault_twice_fails {V : Type} (reg0 reg1 : Registry V)
    (path : String) (v1 v2 : V)
    (h : registerDefault reg0 path v1 = .ok reg1) :
    registerDefault reg1 path v2 = .error .DuplicateDefaultExport := by
  obtain ⟨m, hm, hd⟩ := registerDefault_stores reg0 reg1 path v1 h
  rw [lookup_eq_ok] at hm
  unfold registerDefault
  rw [hm]
  dsimp only
  rw [hd]

/-- C4 witness: registering the Hogwarts default component twice on
`src/Hogwarts.js` fails with `DuplicateDefaultExport` on the second call. -/
theorem registerDefault_twice_fails_witness :
    registerDefault (V := Unit → String) [] hogwartsPath Hogwarts
      = .ok [(hogwartsPath, { defaultBinding := some Hogwarts, namedBindings := [] })] ∧
    registerDefault [(hogwartsPath, { defaultBinding := some Hogwarts, namedBindings := [] })]
      hogwartsPath Hogwarts = .error .DuplicateDefaultExport :=
  ⟨rfl, registerDefault_twice_fails []
    [(hogwartsPath, { defaultBinding := some Hogwarts, namedBindings := [] })]
    hogwartsPath Hogwarts Hogwarts rfl⟩

/-- C5: once a name is registered among a path's named bindings, a second
`registerNamed` of the same name on the same path fails with
`DuplicateNamedExport`; last-registration-wins is disallowed. -/
theorem registerNamed_twice_fails {V : Type} (reg0 reg1 : Registry V)
    (path name : String) (v1 v2 : V)
    (h : registerNamed reg0 path name v1 = .ok reg1) :
    registerNamed reg1 path name v2 = .error .DuplicateNamedExport := by
  obtain ⟨m, hm, hn⟩ := registerNamed_stores reg0 reg1 path name v1 h
  rw [lookup_eq_ok] at hm
  unfold registerNamed
  rw [hm]
  dsimp only
  rw [hn]

/-- C5 witness: registering `colors` twice on the Gryffindor path fails with
`DuplicateNamedExport` on the second call. -/
theorem registerNamed_twice_fails_witness :
    registerNamed (V := Unit → String) [] gryffPath "colors" colors
      = .ok [(gryffPath, { defaultBinding := none, namedBindings := [("colors", colors)] })] ∧
    registerNamed [(gryffPath, { defaultBinding := none, namedBindings := [("colors", colors)] })]
      gryffPath "colors" colors = .error .DuplicateNamedExport :=
  ⟨rfl, registerNamed_twice_fails []
    [(gryffPath, { defaultBinding := none, namedBindings := [("colors", colors)] })]
    gryffPath "colors" colors colors rfl⟩

/-- C6: a `NamedImport` with an alias binds the alias to the same underlying
value reference `v` as the original name does, so reading/invoking either
binding yields that same `v`. -/
theorem aliased_import_same_reference {V : Type} (reg : Registry V)
    (f t name a : String) (m : Module V) (v : V)
    (hm : lookup reg (resolvePath f t) = .ok m)
    (hv : assocLookup m.namedBindings name = some v) :
    resolve reg ⟨f, t, .namedImport [(name, some a)]⟩
      = .ok (.named [(a, .resolved v)]) ∧
    resolve reg ⟨f, t, .namedImport [(name, none)]⟩
      = .ok (.named [(name, .resolved v)]) ∧
    readBinding (BindingRef.resolved v : BindingRef V) = .ok v := by
  refine ⟨?_, ?_, rfl⟩ <;>
    (unfold resolve; rw [hm]; simp [resolveNamed, hv])

/-- C6 witness: `import { mascot as gryffMascot }` binds `gryffMascot` to the
very reference `mascot` is bound to, and both invocations yield `The Lion`. -/
theorem aliased_import_same_reference_witness :
    resolve gryffRegistry ⟨hogwartsPath, "./houses/Gryffindor.js",
        .namedImport [("mascot", some "gryffMascot")]⟩
      = .ok (.named [("gryffMascot", .resolved mascot)]) ∧
    resolve gryffRegistry ⟨hogwartsPath, "./houses/Gryffindor.js",
        .namedImport [("mascot", none)]⟩
      = .ok (.named [("mascot", .resolved mascot)]) ∧
    readBinding (BindingRef.resolved mascot : BindingRef (Unit → String)) = .ok mascot :=
  aliased_import_same_reference gryffRegistry hogwartsPath "./houses/Gryffindor.js"
    "mascot" "gryffMascot" gryffModule mascot rfl rfl

/-- C7: registering named exports `colors` and `mascot` on a fresh path and
then issuing a `NamedImport` for exactly those two names yields two resolved
bindings (no unresolved marker), reading back exactly the registered
values. -/
theorem roundTrip_named_exports {V : Type} (reg0 reg1 reg2 : Registry V)
    (f t path : String) (c msc : V)
    (hpath : resolvePath f t = path)
    (hfresh : assocLookup reg0 path = none)
    (h1 : registerNamed reg0 path "colors" c = .ok reg1)
    (h2 : registerNamed reg1 path "mascot" msc = .ok reg2) :
    resolve reg2 ⟨f, t, .namedImport [("colors", none), ("mascot", none)]⟩
      = .ok (.named [("colors", .resolved c), ("mascot", .resolved msc)]) ∧
    readBinding (BindingRef.resolved c : BindingRef V) = .ok c ∧
    readBinding (BindingRef.resolved msc : BindingRef V) = .ok msc := by
  unfold registerNamed at h1
  rw [hfresh] at h1
  dsimp only at h1
  cases h1
  unfold registerNamed at h2
  rw [assocLookup_setModule_self] at h2
  dsimp only at h2
  simp only [assocLookup, String.reduceEq, if_neg, reduceIte] at h2
  cases h2
  have hl : lookup (setModule (setModule reg0 path
      { defaultBinding := none, namedBindings := [("colors", c)] }) path
      { defaultBinding := none, namedBindings := [("colors", c)] ++ [("mascot", msc)] }) path
      = .ok { defaultBinding := none, namedBindings := [("colors", c)] ++ [("mascot", msc)] } :=
    (lookup_eq_ok _ _ _).mpr (assocLookup_setModule_self _ _ _)
  refine ⟨?_, rfl, rfl⟩
  unfold resolve
  rw [hpath, hl]
  simp [resolveNamed, assocLookup]

/-- C7 witness: the concrete Gryffindor round trip — register `colors` and
`mascot`, import both by name, and read back exactly the registered
functions. -/
theorem roundTrip_named_exports_witness :
    resolve gryffRegistry ⟨hogwartsPath, "./houses/Gryffindor.js",
        .namedImport [("colors", none), ("mascot", none)]⟩
      = .ok (.named [("colors", .resolved colors), ("mascot", .resolved mascot)]) ∧
    readBinding (BindingRef.resolved colors : BindingRef (Unit → String)) = .ok colors ∧
    readBinding (BindingRef.resolved mascot : BindingRef (Unit → String)) = .ok mascot :=
  roundTrip_named_exports []
    [(gryffPath, { defaultBinding := none, namedBindings := [("colors", colors)] })]
    gryffRegistry hogwartsPath "./houses/Gryffindor.js" gryffPath colors mascot
    rfl rfl rfl rfl

/-- C8: for a registered module with both a default binding and named
bindings, the namespace object is exactly the named bindings; provided the
default value is distinct from every named value, no key of the namespace
object yields the default binding. -/
theorem namespaceImport_excludes_default {V : Type} (reg : Registry V)
    (f t a : String) (m : Module V) (d : V)
    (hm : lookup reg (resolvePath f t) = .ok m)
    (hd : m.defaultBinding = some d) :
    resolve reg ⟨f, t, .namespaceImport a⟩ = .ok (.namespaceObj a m.namedBindings) ∧
    ((∀ w ∈ m.namedBindings, w.2 ≠ d) →
      ∀ key, nsAccess m.namedBindings key ≠ .ok d) := by
  constructor
  · unfold resolve
    rw [hm]
  · intro hdist key hacc
    exact hdist _ (nsAccess_mem _ _ _ hacc) rfl

/-- C8 witness: a module with default `Hogwarts` and named `colors` yields a
namespace object holding exactly `colors`, and the default component is not
reachable under the key `colors`. -/
theorem namespaceImport_excludes_default_witness :
    resolve [(hogwartsPath, { defaultBinding := some Hogwarts, namedBindings := [("colors", colors)] })]
        ⟨"src/App.js", "./Hogwarts.js", .namespaceImport "Hog"⟩
      = .ok (.namespaceObj "Hog" [("colors", colors)]) ∧
    nsAccess [("colors", colors)] "colors" ≠ .ok Hogwarts := by
  have h := namespaceImport_excludes_default
    [(hogwartsPath, { defaultBinding := some Hogwarts, namedBindings := [("colors", colors)] })]
    "src/App.js" "./Hogwarts.js" "Hog"
    { defaultBinding := some Hogwarts, namedBindings := [("colors", colors)] }
    Hogwarts rfl rfl
  refine ⟨h.1, h.2 ?_ "colors"⟩
  intro w hw
  simp only [List.mem_singleton] at hw
  subst hw
  intro heq
  exact absurd (congrFun heq ()) (by decide)

/-- C9: resolution is pure and deterministic — a resolve step leaves the
registry (and thus every module record) unchanged, and resolving the same
request again from the resulting state produces the same outcome. -/
theorem resolution_pure_deterministic {V : Type} (reg : Registry V)
    (req : Request) :
    (step reg (.doResolve req)).1 = reg ∧
    (∀ path, lookup (step reg (.doResolve req)).1 path = lookup reg path) ∧
    (step reg (.doResolve req)).2
      = (step (step reg (.doResolve req)).1 (.doResolve req)).2 := by
  cases h : resolve reg req <;> simp [step, h]

/-- C10: registering a function as a named export stores that very reference
(so its behavior is unchanged by registration), while `values`, absent from
Gryffindor's named bindings and hence unresolvable by external importers,
remains an invocable function within the module, alongside the exported
ones. -/
theorem registration_frame_internal_invocable (reg reg1 : Registry (Unit → String))
    (path name : String) (v : Unit → String)
    (h : registerNamed reg path name v = .ok reg1) :
    (∃ m, lookup reg1 path = .ok m ∧ assocLookup m.namedBindings name = some v ∧
      readBinding (BindingRef.resolved v) = .ok v) ∧
    assocLookup gryffModule.namedBindings "values" = none ∧
    invoke values = "Courage, Bravery, Nerve and Chivalry" ∧
    invoke colors = "Scarlet and Gold" ∧
    invoke mascot = "The Lion" := by
  obtain ⟨m, hm, hv⟩ := registerNamed_stores reg reg1 path name v h
  exact ⟨⟨m, hm, hv, rfl⟩, rfl, rfl, rfl, rfl⟩

/-- C10 witness: registering `colors` on the Gryffindor path stores the
reference unchanged, while the unexported `values` stays invocable
in-module. -/
theorem registration_frame_internal_invocable_witness :
    (∃ m, lookup [(gryffPath, { defaultBinding := none, namedBindings := [("colors", colors)] })]
        gryffPath = .ok m ∧
      assocLookup m.namedBindings "colors" = some colors ∧
      readBinding (BindingRef.resolved colors) = .ok colors) ∧
    assocLookup gryffModule.namedBindings "values" = none ∧
    invoke values = "Courage, Bravery, Nerve and Chivalry" ∧
    invoke colors = "Scarlet and Gold" ∧
    invoke mascot = "The Lion" :=
  registration_frame_internal_invocable []
    [(gryffPath, { defaultBinding := none, namedBindings := [("colors", colors)] })]
    gryffPath "colors" colors rfl

end ImportExport
